import Mathlib

/-!
Shallow embedding of the Shopify⇄HGI middleware (src/server.js) for
verification of its order-to-accounting-document mapping, credential cache,
webhook verification and remote-call configuration.

Conventions of the embedding:
  * JavaScript objects become structures; absent / `null` / `undefined`
    fields become `Option`.
  * The mapping table `mapStore.orders` (a JS object keyed by order id)
    becomes an association list; `SysState` carries both the in-memory
    table (`mem`) and the durable file `map.json` (`disk`) so that
    persistence behaviour of `saveMap` is observable.
  * Remote I/O (axios calls) is modelled by passing the outcome of each
    call as an explicit argument; the `Effects` record collects which
    calls a handler performed, mirroring what would go over the wire.
  * Monetary amounts (`Number(order.total_price)`) are modelled as `Rat`.
  * The JS truthiness idiom `a || b` on strings (where the empty string is
    falsy) is modelled by `jsOrStr` / `jsOrOpt`.
-/

namespace MiddlewareHGI

/-- JS `a || b` for an optional string `a` and default `b`: the empty string
counts as falsy, exactly as in JavaScript. -/
def jsOrStr : Option String → String → String
  | some s, b => if s = "" then b else s
  | none, b => b

/-- JS `a || b` where both sides are string-or-null. -/
def jsOrOpt : Option String → Option String → Option String
  | some s, b => if s = "" then b else some s
  | none, b => b

/-- Configuration constants read from the environment at startup
(server.js lines 14-19). `HGI_EMPRESA` is used as `Number(HGI_EMPRESA)`
when building documents, so it is carried as an integer. -/
structure Config where
  HGI_EMPRESA : Int
  HGI_COMPROBANTE : String
  HGI_CUENTA_INGRESO : String
  HGI_CUENTA_CLIENTE : String
  HGI_TERCERO_DEFAULT : String
deriving DecidableEq, Repr

/-- Value stored per order in `mapStore.orders` (server.js line 160 and
lines 298-302): `{ empresa, comprobante, documento }`, where `documento`
may be `null` when the creation response was unparseable. -/
structure OrderMapping where
  empresa : Int
  comprobante : String
  documento : Option String
deriving DecidableEq, Repr

/-- The JS object `mapStore.orders`, keyed by the stringified order id. -/
abbrev MapStore := List (String × OrderMapping)

/-- Lookup `mapStore.orders[orderId]` (pure, no side effect). -/
def getOrder (s : MapStore) (id : String) : Option OrderMapping :=
  s.lookup id

/-- Assignment `mapStore.orders[orderId] = mapping`: replaces any previous
entry for the key, so the table keeps at most one entry per order id. -/
def setOrder (s : MapStore) (id : String) (m : OrderMapping) : MapStore :=
  (id, m) :: s.filter (fun p => p.1 != id)

/-- Process state: the in-memory table and the durable copy in `map.json`. -/
structure SysState where
  mem : MapStore
  disk : MapStore
deriving DecidableEq, Repr

/-- `saveMap` (server.js lines 173-179): writes the in-memory table to
`map.json`; a write failure is caught, logged with
`console.error` and swallowed — the caller never observes it.
`saveOk` is the outcome of the underlying `fs` write. Returns the new disk
contents and the error lines logged. -/
def saveMap (saveOk : Bool) (mem disk : MapStore) : MapStore × List String :=
  if saveOk then (mem, [])
  else (disk, ["[ERROR] No se pudo guardar map.json"])

/-- `order.customer` subobject: only the email is used. -/
structure Customer where
  email : Option String
deriving DecidableEq, Repr

/-- The Shopify order payload fields used by the order webhooks.
`id` is carried after the `String(order.id)` conversion; `total_price`
is carried as the parsed value of the (numeric string) field, `none` when
the field is absent. -/
structure Order where
  id : String
  financial_status : Option String
  total_price : Option Rat
  customer : Option Customer
  created_at : Option String
  cancel_reason : Option String
  cancelled_at : Option String
deriving DecidableEq, Repr

/-- `Number(order.total_price || 0)` (server.js line 268). -/
def totalOf (o : Order) : Rat :=
  o.total_price.getD 0

/-- `order?.customer?.email || HGI_TERCERO_DEFAULT || null`
(server.js line 267). -/
def terceroOf (cfg : Config) (o : Order) : Option String :=
  let fallback : Option String :=
    if cfg.HGI_TERCERO_DEFAULT = "" then none else some cfg.HGI_TERCERO_DEFAULT
  match o.customer.bind Customer.email with
  | some e => if e = "" then fallback else some e
  | none => fallback

/-- One element of `ComprobanteDetalle` (server.js lines 276-289). Optional
fields that a given line omits are `none`. -/
structure DetalleLine where
  CuentaNIIF : String
  Detalle : String
  Referencia : Option String
  Tercero : Option String
  Debito : Rat
  Credito : Rat
deriving DecidableEq, Repr

/-- The accounting document posted to `Api/DocumentosContables/Crear`
(server.js lines 270-291). -/
structure Documento where
  Empresa : Int
  IdComprobante : String
  Fecha : String
  Observaciones : String
  ComprobanteDetalle : List DetalleLine
deriving DecidableEq, Repr

/-- Builds the document payload from an order: two detail lines, a credit
of the order total to the revenue account referencing the order, and a
debit of the same total to the client account referencing the customer
(server.js lines 270-291). `nowIso` stands for
`new Date().toISOString()`. -/
def buildDocumento (cfg : Config) (nowIso : String) (o : Order) : Documento :=
  let orderId := o.id
  let terc := terceroOf cfg o
  let tot := totalOf o
  { Empresa := cfg.HGI_EMPRESA
    IdComprobante := cfg.HGI_COMPROBANTE
    Fecha := jsOrStr o.created_at nowIso
    Observaciones := "Shopify order " ++ orderId
    ComprobanteDetalle :=
      [ { CuentaNIIF := cfg.HGI_CUENTA_INGRESO
          Detalle := "Venta " ++ orderId
          Referencia := some orderId
          Tercero := none
          Debito := 0
          Credito := tot },
        { CuentaNIIF := cfg.HGI_CUENTA_CLIENTE
          Detalle := "Cliente " ++ jsOrStr terc "N/A"
          Referencia := none
          Tercero := terc
          Debito := tot
          Credito := 0 } ] }

/-- The first element of the creation response, i.e. the JS value
`created` at server.js line 297, with the three identifier fields the code
probes. -/
structure CreateResp where
  Documento : Option String
  Id : Option String
  documento : Option String
deriving DecidableEq, Repr

/-- `created?.Documento || created?.Id || created?.documento || null`
(server.js line 301). -/
def extractDocId (r : CreateResp) : Option String :=
  jsOrOpt (jsOrOpt r.Documento r.Id) r.documento

/-- Outcome of `getHgiToken()` as observed by a handler: a token, or a
thrown error. -/
inductive AuthCallResult
  | ok (jwt : String)
  | err (msg : String)
deriving DecidableEq, Repr

/-- Outcome of the `axios.post` to `Api/DocumentosContables/Crear`: the
parsed first element of the response, or a thrown error. -/
inductive CreateCallResult
  | ok (resp : CreateResp)
  | err (msg : String)
deriving DecidableEq, Repr

/-- Outcome of the `axios.put` to `Api/DocumentosContables/Actualizar`. -/
inductive VoidCallResult
  | ok
  | err (msg : String)
deriving DecidableEq, Repr

/-- Return value of `createHgiDocFromOrder`: the string sentinel
`"already"` (server.js line 265), the stored mapping (line 307), or a
propagated exception. -/
inductive CreateOutcome
  | already
  | created (m : OrderMapping)
  | threw (msg : String)
deriving DecidableEq, Repr

/-- The void/cancel payload sent to `Api/DocumentosContables/Actualizar`
(server.js lines 371-377). -/
structure VoidDoc where
  Empresa : Int
  IdComprobante : String
  Documento : Option String
  Estado : Nat
  Observaciones : String
deriving DecidableEq, Repr

/-- Observable remote/persistence activity of one handler invocation.
`authCalls` counts invocations of `getHgiToken` (an upper bound on
authentication network calls, since the cache may answer without I/O);
`createCalls` and `voidCalls` record the payloads posted to the HGI
document endpoints; `saveCalls` counts `saveMap` invocations;
`errorLogs` collects `console.error` lines emitted by `saveMap`. -/
structure Effects where
  authCalls : Nat
  createCalls : List Documento
  voidCalls : List VoidDoc
  saveCalls : Nat
  errorLogs : List String
deriving DecidableEq, Repr

/-- No remote or persistence activity. -/
def noEffects : Effects :=
  { authCalls := 0
    createCalls := []
    voidCalls := []
    saveCalls := 0
    errorLogs := [] }

/-- `createHgiDocFromOrder` (server.js lines 263-308). If a mapping for
the order already exists it returns the sentinel `"already"` without
touching anything. Otherwise it builds the document, acquires a token,
posts the document, stores the resulting mapping in memory and awaits
`saveMap` before returning the mapping; exceptions from the token call or
the post propagate before any store mutation. -/
def createHgiDocFromOrder (cfg : Config) (auth : AuthCallResult)
    (remote : CreateCallResult) (saveOk : Bool) (nowIso : String)
    (st : SysState) (o : Order) : CreateOutcome × SysState × Effects :=
  let orderId := o.id
  match getOrder st.mem orderId with
  | some _ => (.already, st, noEffects)
  | none =>
    let documento := buildDocumento cfg nowIso o
    match auth with
    | .err m => (.threw m, st, { noEffects with authCalls := 1 })
    | .ok _jwt =>
      match remote with
      | .err m =>
        (.threw m, st,
          { noEffects with authCalls := 1, createCalls := [documento] })
      | .ok resp =>
        let mapping : OrderMapping :=
          { empresa := documento.Empresa
            comprobante := documento.IdComprobante
            documento := extractDocId resp }
        let mem' := setOrder st.mem orderId mapping
        let saved := saveMap saveOk mem' st.disk
        (.created mapping, { mem := mem', disk := saved.1 },
          { noEffects with
            authCalls := 1
            createCalls := [documento]
            saveCalls := 1
            errorLogs := saved.2 })

/-- The `orders/paid` webhook handler (server.js lines 344-358): answers
`200 Already processed` when a mapping exists, otherwise runs
`createHgiDocFromOrder` and answers `200 OK`, or `500 Error` when it
throws. -/
def ordersPaidHandler (cfg : Config) (auth : AuthCallResult)
    (remote : CreateCallResult) (saveOk : Bool) (nowIso : String)
    (st : SysState) (o : Order) : (Nat × String) × SysState × Effects :=
  let orderId := o.id
  match getOrder st.mem orderId with
  | some _ => ((200, "Already processed"), st, noEffects)
  | none =>
    match createHgiDocFromOrder cfg auth remote saveOk nowIso st o with
    | (.threw _, st', eff) => ((500, "Error"), st', eff)
    | (_, st', eff) => ((200, "OK"), st', eff)

/-- The void payload built by the `orders/cancelled` handler from the
stored mapping (server.js lines 371-377); `Estado = 2` marks the document
voided. -/
def mkVoidDoc (m : OrderMapping) (o : Order) : VoidDoc :=
  { Empresa := m.empresa
    IdComprobante := m.comprobante
    Documento := m.documento
    Estado := 2
    Observaciones := "Shopify cancel " ++ o.id ++ " ("
      ++ jsOrStr o.cancel_reason "unspecified" ++ ") "
      ++ jsOrStr o.cancelled_at "" }

/-- The `orders/cancelled` webhook handler (server.js lines 361-389): with
no mapping it acknowledges `200 No mapping` without any remote call; with
a mapping it acquires a token and puts one void document, leaving the
mapping untouched, answering `200 OK` on success and `500 Error` when the
token call or the put throws. -/
def ordersCancelledHandler (auth : AuthCallResult) (voidRes : VoidCallResult)
    (st : SysState) (o : Order) : (Nat × String) × SysState × Effects :=
  let orderId := o.id
  match getOrder st.mem orderId with
  | none => ((200, "No mapping"), st, noEffects)
  | some mapping =>
    let doc := mkVoidDoc mapping o
    match auth with
    | .err _ => ((500, "Error"), st, { noEffects with authCalls := 1 })
    | .ok _ =>
      match voidRes with
      | .err _ =>
        ((500, "Error"), st,
          { noEffects with authCalls := 1, voidCalls := [doc] })
      | .ok =>
        ((200, "OK"), st,
          { noEffects with authCalls := 1, voidCalls := [doc] })

/-! ## Credential cache (`getHgiToken`, server.js lines 83-130) -/

/-- A JavaScript number as the expiry logic can produce it: an integer
count of epoch milliseconds, or NaN — which `Date.parse` returns for a
present but unparseable date string. -/
inductive JsTime
  | nan
  | fin (ms : Int)
deriving DecidableEq, Repr

/-- JS subtraction of a finite number from a possibly-NaN number: NaN
propagates. -/
def jsSub : JsTime → Int → JsTime
  | .nan, _ => .nan
  | .fin a, b => .fin (a - b)

/-- `Math.max` with a finite second argument: `Math.max(NaN, y)` is
NaN. -/
def jsMaxFin : JsTime → Int → JsTime
  | .nan, _ => .nan
  | .fin a, b => .fin (max a b)

/-- The JS comparison `a < t`: every comparison against NaN is false. -/
def jsLtTime (a : Int) : JsTime → Bool
  | .nan => false
  | .fin b => decide (a < b)

/-- The `PasswordExpiration || passwordExpiration` hint as server.js line
120 sees it: falsy/absent, or a truthy string run through `Date.parse`,
which yields either a parsed epoch or NaN when the string is not a
date. -/
inductive ExpHint
  | absent
  | parsed (ms : Int)
  | unparseable
deriving DecidableEq, Repr

/-- The module-level auth cache: `hgiToken`, `hgiExpiresAt` (epoch ms,
initially `0`, possibly NaN after a refresh whose expiry hint did not
parse) and the pending-promise slot `authPromise`, here identified by an
attempt number (server.js lines 85-87). -/
structure AuthState where
  hgiToken : Option String
  hgiExpiresAt : JsTime
  authPromise : Option Nat
deriving DecidableEq, Repr

/-- Expiry stored after a successful refresh (server.js lines 119-121):
`Date.parse(PasswordExpiration)` when the hint is present — NaN when that
string is unparseable — else `now + 10 minutes`; then
`Math.max(exp - 60_000, now + 120_000)`, through which NaN propagates. -/
def computeHgiExpiresAt (now : Int) (expHint : ExpHint) : JsTime :=
  let exp : JsTime :=
    match expHint with
    | .parsed t => .fin t
    | .unparseable => .nan
    | .absent => .fin (now + 10 * 60 * 1000)
  jsMaxFin (jsSub exp (60 * 1000)) (now + 2 * 60 * 1000)

/-- Modelled from the spec: `expiresAt = max(hintedExpiry - safetyMargin,
now + minimumValidity)` with a 60 s margin, 2 min minimum validity and a
10 min default window when no hint is present (spec §4.1), for comparison
with `computeHgiExpiresAt`. -/
def specExpiresAt (now : Int) (hintedExpiry : Option Int) : Int :=
  max ((hintedExpiry.getD (now + 10 * 60 * 1000)) - 60 * 1000)
    (now + 2 * 60 * 1000)

/-- The parsed body of the `Api/Autenticar` response, or a transport
error: `errPayload` is a body with an `Error` object (optional `Mensaje`),
`payload` carries `JwtToken || jwtToken` and the
`PasswordExpiration || passwordExpiration` hint (absent, parsed, or
present but unparseable by `Date.parse`), `netErr` is a thrown `axios`
error. -/
inductive AuthResponse
  | errPayload (mensaje : Option String)
  | payload (jwtToken : Option String) (passwordExpiration : ExpHint)
  | netErr (msg : String)
deriving DecidableEq, Repr

/-- Whether the refresh attempt fails on this response: an `Error`
payload, a missing or empty token (`if (!jwt)`), or a thrown transport
error. -/
def authRespFails : AuthResponse → Bool
  | .errPayload _ => true
  | .payload none _ => true
  | .payload (some jwt) _ => jwt == ""
  | .netErr _ => true

/-- The error message thrown for a failing response (server.js lines
107-116): `Error?.Mensaje || "HGI Autenticar devolvió Error"` for an
error payload, the missing-token message otherwise. -/
def authErrMsg : AuthResponse → String
  | .errPayload m => jsOrStr m "HGI Autenticar devolvió Error"
  | .payload _ _ => "No se obtuvo JwtToken de HGI"
  | .netErr m => m

/-- Resolution of the single in-flight refresh attempt (the async closure
at server.js lines 94-127): on success it stores the token and computes
the expiry; on any failure the cache fields are untouched and the error
is the attempt result. In every case the `finally` block clears
`authPromise`. -/
def runAuthAttempt (now : Int) (resp : AuthResponse) (s : AuthState) :
    Except String String × AuthState :=
  match resp with
  | .errPayload m =>
    (.error (jsOrStr m "HGI Autenticar devolvió Error"),
      { s with authPromise := none })
  | .netErr m => (.error m, { s with authPromise := none })
  | .payload jwtOpt expHint =>
    match jwtOpt with
    | none =>
      (.error "No se obtuvo JwtToken de HGI", { s with authPromise := none })
    | some jwt =>
      if jwt = "" then
        (.error "No se obtuvo JwtToken de HGI",
          { s with authPromise := none })
      else
        (.ok jwt,
          { hgiToken := some jwt
            hgiExpiresAt := computeHgiExpiresAt now expHint
            authPromise := none })

/-- What a call to `getHgiToken` resolves to before any awaiting: the
cached token, the already in-flight attempt, or a freshly started
attempt. -/
inductive GetTokenAction
  | cached (tok : String)
  | joinInflight (attempt : Nat)
  | startAttempt (attempt : Nat)
deriving DecidableEq, Repr

/-- Lines 92 and 94-129 of server.js: join the pending promise when one
exists, otherwise install a fresh attempt in the `authPromise` slot.
`fresh` is the identity of the attempt that would be started. -/
def startOrJoin (fresh : Nat) (s : AuthState) : GetTokenAction × AuthState :=
  match s.authPromise with
  | some a => (.joinInflight a, s)
  | none => (.startAttempt fresh, { s with authPromise := some fresh })

/-- The synchronous prefix of `getHgiToken()` (server.js lines 89-129):
return the cached token while `now < hgiExpiresAt`, else join or start
the single in-flight refresh. -/
def getHgiTokenEntry (now : Int) (fresh : Nat) (s : AuthState) :
    GetTokenAction × AuthState :=
  match s.hgiToken with
  | some tok =>
    if jsLtTime now s.hgiExpiresAt then (.cached tok, s)
    else startOrJoin fresh s
  | none => startOrJoin fresh s

/-! ## Interleaving model of concurrent `createHgiDocFromOrder` calls

`createHgiDocFromOrder` contains awaited I/O between its map check and its
map write (`await getHgiToken()` at line 293, `await axios.post` at line
295, `await saveMap()` at line 305 of server.js), so two handlers for the
same order can interleave at those suspension points. Each task is split
into the atomic segments between awaits:
  * `start`   — entry up to the first await: the `mapStore.orders[orderId]`
                check (line 265) and the document build, then suspends on
                `getHgiToken()`;
  * `checked` — the token await resolved; issuing `axios.post` to
                `Api/DocumentosContables/Crear` and suspending on it
                (this transition is the remote creation side effect);
  * `called`  — the post resolved; stores the mapping into
                `mapStore.orders` and finishes (the `saveMap` await does
                not touch `mapStore`).
Both tasks process the same webhook payload (a duplicate delivery), so
they share `cfg`, `o` and the remote response `resp`. -/

/-- Control point of one in-flight `createHgiDocFromOrder` invocation. -/
inductive TaskPhase
  | start
  | checked
  | called
  | done (out : CreateOutcome)
deriving DecidableEq, Repr

/-- Shared memory plus the two tasks and a count of remote creation
calls. -/
structure RaceState where
  mem : MapStore
  t0 : TaskPhase
  t1 : TaskPhase
  createCalls : Nat
deriving DecidableEq, Repr

/-- One atomic segment of a task: returns the new phase, the new shared
map and how many remote creation calls the segment issued. -/
def stepPhase (cfg : Config) (resp : CreateResp) (nowIso : String)
    (o : Order) (mem : MapStore) : TaskPhase → TaskPhase × MapStore × Nat
  | .start =>
    match getOrder mem o.id with
    | some _ => (.done .already, mem, 0)
    | none => (.checked, mem, 0)
  | .checked => (.called, mem, 1)
  | .called =>
    let documento := buildDocumento cfg nowIso o
    let mapping : OrderMapping :=
      { empresa := documento.Empresa
        comprobante := documento.IdComprobante
        documento := extractDocId resp }
    (.done (.created mapping), setOrder mem o.id mapping, 0)
  | .done out => (.done out, mem, 0)

/-- Run one scheduler step: `false` advances task 0, `true` task 1. -/
def stepRace (cfg : Config) (resp : CreateResp) (nowIso : String)
    (o : Order) (s : RaceState) (who : Bool) : RaceState :=
  if who then
    let r := stepPhase cfg resp nowIso o s.mem s.t1
    { s with t1 := r.1, mem := r.2.1, createCalls := s.createCalls + r.2.2 }
  else
    let r := stepPhase cfg resp nowIso o s.mem s.t0
    { s with t0 := r.1, mem := r.2.1, createCalls := s.createCalls + r.2.2 }

/-- Run a whole schedule of interleaved segments. -/
def runRace (cfg : Config) (resp : CreateResp) (nowIso : String)
    (o : Order) (sched : List Bool) (s : RaceState) : RaceState :=
  sched.foldl (stepRace cfg resp nowIso o) s

/-! ## Webhook signature verification (server.js lines 135-156) -/

/-- `crypto.timingSafeEqual`: throws on buffers of different length,
otherwise decides byte equality (its timing behaviour is outside the
functional model). -/
def timingSafeEqualJS (a b : List Nat) : Except String Bool :=
  if a.length = b.length then .ok (a == b)
  else .error "Input buffers must have the same byte length"

/-- The body of the `try` block in `verifyShopifyHmac` (server.js lines
137-144), given the computed digest bytes `genBuf` and the decoded header
bytes `headBuf`: return `false` on a length mismatch, otherwise compare
with `timingSafeEqual`. -/
def verifyShopifyHmacCore (genBuf headBuf : List Nat) : Except String Bool :=
  if genBuf.length ≠ headBuf.length then .ok false
  else timingSafeEqualJS genBuf headBuf

/-- The `catch` of `verifyShopifyHmac` (server.js lines 145-148): any
exception is logged and turned into `false`. -/
def catchToFalse : Except String Bool → Bool
  | .ok b => b
  | .error _ => false

/-- `verifyShopifyHmac(rawBody, headerHmac)` (server.js lines 135-149),
abstracted over the HMAC-SHA256 digest of the raw body (`genBuf`) and a
base64 decoder for the header; an absent header is replaced by the empty
string (`headerHmac || ''`). -/
def verifyShopifyHmac (b64decode : String → List Nat) (genBuf : List Nat)
    (headerHmac : Option String) : Bool :=
  catchToFalse (verifyShopifyHmacCore genBuf (b64decode (headerHmac.getD "")))

/-- Result of the `verifyWebhook` middleware. -/
inductive GateResult
  | reject (status : Nat) (body : String)
  | next
deriving DecidableEq, Repr

/-- `verifyWebhook` (server.js lines 151-156): reject with 401 when the
HMAC check returns false, otherwise pass the request on. -/
def verifyWebhook (hmacOk : Bool) : GateResult :=
  if hmacOk then .next else .reject 401 "Invalid HMAC"

/-! ## Outbound call sites and their timeouts -/

/-- One axios call site of server.js with the `timeout` option it passes
(in milliseconds); `none` when no timeout is configured (axios then waits
indefinitely). -/
structure AxiosCallSite where
  name : String
  timeoutMs : Option Nat
deriving DecidableEq, Repr

/-- The commerce-platform client `axios.create` at server.js lines 33-36
configures `baseURL` and the access-token header but no `timeout`; every
request through it inherits the axios default of no timeout. -/
def shopifyClientTimeoutMs : Option Nat := none

/-- `GET Api/Autenticar` (line 103). -/
def autenticarSite : AxiosCallSite := ⟨"GET Api/Autenticar", some 20000⟩

/-- `PUT Api/Productos/Actualizar` from `productos/update` (line 219). -/
def productosUpdateSite : AxiosCallSite :=
  ⟨"PUT Api/Productos/Actualizar (productos/update)", some 20000⟩

/-- `PUT Api/Productos/Actualizar` from `productos/delete` (line 248). -/
def productosDeleteSite : AxiosCallSite :=
  ⟨"PUT Api/Productos/Actualizar (productos/delete)", some 20000⟩

/-- `POST Api/DocumentosContables/Crear` (line 295). -/
def docCrearSite : AxiosCallSite :=
  ⟨"POST Api/DocumentosContables/Crear", some 20000⟩

/-- `PUT Api/DocumentosContables/Actualizar` (line 381). -/
def docActualizarSite : AxiosCallSite :=
  ⟨"PUT Api/DocumentosContables/Actualizar", some 20000⟩

/-- `GET Api/Productos/ObtenerLista` (lines 402-411). -/
def obtenerListaSite : AxiosCallSite :=
  ⟨"GET Api/Productos/ObtenerLista", some 20000⟩

/-- `GET Api/Existencias/Obtener` (lines 429-433). -/
def existenciasSite : AxiosCallSite :=
  ⟨"GET Api/Existencias/Obtener", some 20000⟩

/-- `shopify.post("/graphql.json", ...)` in `shopifyGQL` (line 40), used
by `findVariantBySKU` (variant lookup) and `setOnHand` (stock set). -/
def shopifyGraphqlSite : AxiosCallSite :=
  ⟨"POST /graphql.json (shopifyGQL: findVariantBySKU, setOnHand)",
    shopifyClientTimeoutMs⟩

/-- `shopify.put("/variants/:id.json", ...)` in `setVariantPrice`
(line 62). -/
def variantPriceSite : AxiosCallSite :=
  ⟨"PUT /variants/:id.json (setVariantPrice)", shopifyClientTimeoutMs⟩

/-- Call sites that target the HGI (ERP) API; each passes an explicit
`timeout` option. -/
def hgiCallSites : List AxiosCallSite :=
  [autenticarSite, productosUpdateSite, productosDeleteSite, docCrearSite,
    docActualizarSite, obtenerListaSite, existenciasSite]

/-- Every outbound remote call in server.js. -/
def outboundCallSites : List AxiosCallSite :=
  hgiCallSites ++ [shopifyGraphqlSite, variantPriceSite]

/-- A call site has a bounded timeout on the order of tens of seconds. -/
def hasBoundedTimeout (c : AxiosCallSite) : Bool :=
  match c.timeoutMs with
  | some t => decide (0 < t) && decide (t ≤ 60000)
  | none => false

/-! ## Concrete sample data used to instantiate the theorems -/

/-- A sample configuration (company 77, voucher FV, the default revenue
and receivable accounts, no default third party). -/
def sampleConfig : Config := ⟨77, "FV", "413505", "130505", ""⟩

/-- Scenario A order: id 1001, paid, total 50. -/
def sampleOrder : Order :=
  { id := "1001"
    financial_status := some "paid"
    total_price := some 50
    customer := some ⟨some "cliente@tienda.co"⟩
    created_at := some "2024-01-01T00:00:00Z"
    cancel_reason := none
    cancelled_at := none }

/-- A creation response carrying a document id in the `Documento`
field. -/
def sampleResp : CreateResp := ⟨some "D-1", none, none⟩

/-- The mapping `createHgiDocFromOrder` stores for `sampleOrder` under
`sampleConfig` when the remote call answers `sampleResp`. -/
def sampleMapping : OrderMapping := ⟨77, "FV", some "D-1"⟩

/-- A state whose memory and disk both already map order 1001. -/
def mappedSys : SysState :=
  ⟨[("1001", sampleMapping)], [("1001", sampleMapping)]⟩

/-- Storing a mapping makes it the result of a subsequent lookup. -/
theorem getOrder_setOrder_self (s : MapStore) (id : String)
    (m : OrderMapping) : getOrder (setOrder s id m) id = some m := by
  simp [getOrder, setOrder, List.lookup]

/-! ## Claims -/

/-- Claim C1 (counterexample): for the already-mapped order 1001,
`createHgiDocFromOrder` returns the sentinel `"already"` (server.js line
265), which is not the existing mapping — refuting the part of the claim
that says the existing mapping is returned. -/
theorem C1_counterexample :
    (createHgiDocFromOrder sampleConfig (.ok "tok") (.ok sampleResp) true
        "now" mappedSys sampleOrder).1 = CreateOutcome.already ∧
    CreateOutcome.already ≠ CreateOutcome.created sampleMapping := by
  exact ⟨rfl, by decide⟩

/-- Claim C1 (amended): when a mapping for the order id is already
present, `createHgiDocFromOrder` is a no-op — the document builder and
the remote creation call do not run, the state (memory and disk) is
unchanged and no effect is performed — but its return value is the
sentinel `"already"`, not the existing mapping. -/
theorem C1_already_is_noop (cfg : Config) (auth : AuthCallResult)
    (remote : CreateCallResult) (saveOk : Bool) (nowIso : String)
    (st : SysState) (o : Order) (m : OrderMapping)
    (h : getOrder st.mem o.id = some m) :
    createHgiDocFromOrder cfg auth remote saveOk nowIso st o =
      (.already, st, noEffects) := by
  simp [createHgiDocFromOrder, h]

/-- Witness for C1 at the concrete mapped state. -/
theorem C1_already_is_noop_witness :
    createHgiDocFromOrder sampleConfig (.ok "tok") (.ok sampleResp) true
        "now" mappedSys sampleOrder = (.already, mappedSys, noEffects) :=
  C1_already_is_noop sampleConfig (.ok "tok") (.ok sampleResp) true "now"
    mappedSys sampleOrder sampleMapping rfl

/-- Claim C2: the check-then-act of `createHgiDocFromOrder` is NOT
serialized — there is no mutual-exclusion guard in server.js, and the
map check (line 265) is separated from the map write (line 304) by
awaited I/O. In the interleaving where both duplicate deliveries of
order 1001 pass the check before either stores (schedule
T0,T1,T0,T1,T0,T1), TWO remote creation calls occur, violating the
exactly-one property; the sequential schedule (T0 to completion, then
T1) performs exactly one call and the second task observes the stored
mapping. -/
theorem C2_race_two_creates :
    (runRace sampleConfig sampleResp "now" sampleOrder
        [false, true, false, true, false, true]
        ⟨[], .start, .start, 0⟩).createCalls = 2 ∧
    (runRace sampleConfig sampleResp "now" sampleOrder
        [false, true, false, true, false, true]
        ⟨[], .start, .start, 0⟩).t0 =
      .done (.created sampleMapping) ∧
    (runRace sampleConfig sampleResp "now" sampleOrder
        [false, true, false, true, false, true]
        ⟨[], .start, .start, 0⟩).t1 =
      .done (.created sampleMapping) ∧
    (runRace sampleConfig sampleResp "now" sampleOrder
        [false, false, false, true]
        ⟨[], .start, .start, 0⟩).createCalls = 1 ∧
    (runRace sampleConfig sampleResp "now" sampleOrder
        [false, false, false, true]
        ⟨[], .start, .start, 0⟩).t1 = .done .already := by
  exact ⟨rfl, rfl, rfl, rfl, rfl⟩

/-- Claim C3 (counterexample): with a failing `map.json` write, the paid
order is still acknowledged `200 OK`, the mapping is committed in memory
only, and durable storage does not contain it — refuting the claim that
mutations are flushed before being considered committed and that a flush
failure is surfaced instead of acknowledging the event. -/
theorem C3_counterexample :
    (ordersPaidHandler sampleConfig (.ok "tok") (.ok sampleResp) false
        "now" ⟨[], []⟩ sampleOrder).1 = (200, "OK") ∧
    getOrder ((ordersPaidHandler sampleConfig (.ok "tok") (.ok sampleResp)
        false "now" ⟨[], []⟩ sampleOrder).2.1).disk "1001" = none ∧
    getOrder ((ordersPaidHandler sampleConfig (.ok "tok") (.ok sampleResp)
        false "now" ⟨[], []⟩ sampleOrder).2.1).mem "1001" =
      some sampleMapping := by
  exact ⟨rfl, rfl, rfl⟩

/-- Claim C3 (amended): `createHgiDocFromOrder` awaits `saveMap` after
every store mutation, but `saveMap` catches a flush failure and only
logs `[ERROR] No se pudo guardar map.json`; the mutation remains
committed in memory, durable storage is unchanged, and the handler still
acknowledges the event with `200 OK` as if the mapping had persisted. -/
theorem C3_flush_failure_swallowed (cfg : Config) (jwt : String)
    (resp : CreateResp) (nowIso : String) (st : SysState) (o : Order)
    (h : getOrder st.mem o.id = none) :
    (ordersPaidHandler cfg (.ok jwt) (.ok resp) false nowIso st o).1 =
      (200, "OK") ∧
    getOrder ((ordersPaidHandler cfg (.ok jwt) (.ok resp) false nowIso
        st o).2.1).mem o.id =
      some ⟨cfg.HGI_EMPRESA, cfg.HGI_COMPROBANTE, extractDocId resp⟩ ∧
    ((ordersPaidHandler cfg (.ok jwt) (.ok resp) false nowIso
        st o).2.1).disk = st.disk ∧
    ((ordersPaidHandler cfg (.ok jwt) (.ok resp) false nowIso
        st o).2.2).errorLogs = ["[ERROR] No se pudo guardar map.json"] := by
  refine ⟨?_, ?_, ?_, ?_⟩ <;>
    simp [ordersPaidHandler, createHgiDocFromOrder, h, saveMap,
      buildDocumento, getOrder_setOrder_self]

/-- Witness for C3 at the empty state. -/
theorem C3_flush_failure_swallowed_witness :
    (ordersPaidHandler sampleConfig (.ok "tok") (.ok sampleResp) false
        "now" ⟨[], []⟩ sampleOrder).1 = (200, "OK") ∧
    getOrder ((ordersPaidHandler sampleConfig (.ok "tok") (.ok sampleResp)
        false "now" ⟨[], []⟩ sampleOrder).2.1).mem sampleOrder.id =
      some ⟨sampleConfig.HGI_EMPRESA, sampleConfig.HGI_COMPROBANTE,
        extractDocId sampleResp⟩ ∧
    ((ordersPaidHandler sampleConfig (.ok "tok") (.ok sampleResp) false
        "now" ⟨[], []⟩ sampleOrder).2.1).disk = SysState.disk ⟨[], []⟩ ∧
    ((ordersPaidHandler sampleConfig (.ok "tok") (.ok sampleResp) false
        "now" ⟨[], []⟩ sampleOrder).2.2).errorLogs =
      ["[ERROR] No se pudo guardar map.json"] :=
  C3_flush_failure_swallowed sampleConfig "tok" sampleResp "now"
    ⟨[], []⟩ sampleOrder rfl

/-- Claim C4: if the remote document-creation call throws for an order
with no existing mapping, the handler answers `500 Error`, the state
(memory and disk) is returned unchanged, and no save is attempted; the
only effects are the token acquisition and the failed post. -/
theorem C4_remote_failure_no_mapping (cfg : Config) (jwt msg : String)
    (saveOk : Bool) (nowIso : String) (st : SysState) (o : Order)
    (h : getOrder st.mem o.id = none) :
    ordersPaidHandler cfg (.ok jwt) (.err msg) saveOk nowIso st o =
      ((500, "Error"), st,
        { noEffects with
          authCalls := 1
          createCalls := [buildDocumento cfg nowIso o] }) := by
  simp [ordersPaidHandler, createHgiDocFromOrder, h]

/-- Witness for C4 at the empty state. -/
theorem C4_remote_failure_no_mapping_witness :
    ordersPaidHandler sampleConfig (.ok "tok") (.err "HGI 500") true "now"
        ⟨[], []⟩ sampleOrder =
      ((500, "Error"), (⟨[], []⟩ : SysState),
        { noEffects with
          authCalls := 1
          createCalls := [buildDocumento sampleConfig "now" sampleOrder] }) :=
  C4_remote_failure_no_mapping sampleConfig "tok" "HGI 500" true "now"
    ⟨[], []⟩ sampleOrder rfl

/-- Claim C5 (counterexample): a present but unparseable
`PasswordExpiration` makes `Date.parse` return NaN (line 120), and
`Math.max(NaN - 60000, now + 120000)` stores NaN (line 121), on a refresh
that nonetheless succeeds and caches the token — so the stored expiry is
NOT strictly in the future (`now < NaN` is false: zero validity), refuting
the always-strictly-future conjunct of the claim. -/
theorem C5_counterexample :
    computeHgiExpiresAt 1000 ExpHint.unparseable = JsTime.nan ∧
    jsLtTime 1000 (computeHgiExpiresAt 1000 ExpHint.unparseable) = false ∧
    runAuthAttempt 1000 (.payload (some "tok") .unparseable)
        ⟨none, .fin 0, some 5⟩ =
      (.ok "tok", ⟨some "tok", JsTime.nan, none⟩) ∧
    jsLtTime 1000 (AuthState.hgiExpiresAt
        ⟨some "tok", JsTime.nan, none⟩) = false := by
  exact ⟨rfl, rfl, rfl, rfl⟩

/-- Claim C5 (amended): after a successful refresh whose expiry hint is
absent or parseable, the stored expiry is exactly the spec formula
`max(hintedExpiry - 60 s, now + 2 min)` — the hinted expiry defaulting to
`now + 10 min` when absent — and is then strictly in the future; but when
the hint is present and unparseable, `Date.parse` yields NaN and the
stored expiry is NaN, which is not strictly in the future (the cached
token is then never served, so every acquire refreshes again). -/
theorem C5_expiry_formula (now : Int) (hint : ExpHint) :
    (∀ t, hint = .parsed t →
      computeHgiExpiresAt now hint = .fin (specExpiresAt now (some t)) ∧
      jsLtTime now (computeHgiExpiresAt now hint) = true) ∧
    (hint = .absent →
      computeHgiExpiresAt now hint = .fin (specExpiresAt now none) ∧
      jsLtTime now (computeHgiExpiresAt now hint) = true) ∧
    (hint = .unparseable →
      computeHgiExpiresAt now hint = .nan ∧
      jsLtTime now (computeHgiExpiresAt now hint) = false) := by
  refine ⟨fun t ht => ?_, fun ha => ?_, fun hu => ?_⟩
  · subst ht
    refine ⟨rfl, ?_⟩
    simp only [computeHgiExpiresAt, jsSub, jsMaxFin, jsLtTime,
      decide_eq_true_eq]
    exact lt_max_iff.mpr (Or.inr (by omega))
  · subst ha
    refine ⟨rfl, ?_⟩
    simp only [computeHgiExpiresAt, jsSub, jsMaxFin, jsLtTime,
      decide_eq_true_eq]
    exact lt_max_iff.mpr (Or.inr (by omega))
  · subst hu
    exact ⟨rfl, rfl⟩

/-- Witness for C5 at a parsed hint and at an absent hint. -/
theorem C5_expiry_formula_witness :
    (computeHgiExpiresAt 1000 (.parsed 999999999) =
      .fin (specExpiresAt 1000 (some 999999999)) ∧
      jsLtTime 1000 (computeHgiExpiresAt 1000 (.parsed 999999999)) =
        true) ∧
    (computeHgiExpiresAt 1000 .absent =
      .fin (specExpiresAt 1000 none) ∧
      jsLtTime 1000 (computeHgiExpiresAt 1000 .absent) = true) :=
  ⟨(C5_expiry_formula 1000 (.parsed 999999999)).1 999999999 rfl,
    (C5_expiry_formula 1000 .absent).2.1 rfl⟩

/-- Claim C6: when the refresh attempt fails (error payload, missing or
empty token, or transport error), the attempt resolves to the
corresponding error, the pending-promise slot `authPromise` is cleared by
the `finally` block (so a later acquire can start a new refresh), the
cached token and expiry are untouched, every caller arriving while the
attempt was in flight joins that same attempt (hence receives the same
error), and nothing is retried automatically: after the failure a new
network call happens only when `getHgiToken` is invoked again, which then
starts a fresh attempt. -/
theorem C6_auth_failure_single_flight (now : Int) (resp : AuthResponse)
    (s : AuthState) (i fresh fresh2 : Nat)
    (hfail : authRespFails resp = true) (hin : s.authPromise = some i) :
    (runAuthAttempt now resp s).1 = .error (authErrMsg resp) ∧
    ((runAuthAttempt now resp s).2).authPromise = none ∧
    ((runAuthAttempt now resp s).2).hgiToken = s.hgiToken ∧
    ((runAuthAttempt now resp s).2).hgiExpiresAt = s.hgiExpiresAt ∧
    (startOrJoin fresh s).1 = .joinInflight i ∧
    (s.hgiToken = none →
      (getHgiTokenEntry now fresh2 ((runAuthAttempt now resp s).2)).1 =
        .startAttempt fresh2) := by
  have hjoin : (startOrJoin fresh s).1 = .joinInflight i := by
    simp [startOrJoin, hin]
  cases resp with
  | errPayload m =>
    refine ⟨rfl, rfl, rfl, rfl, hjoin, fun hnone => ?_⟩
    simp [runAuthAttempt, getHgiTokenEntry, startOrJoin, hnone]
  | netErr m =>
    refine ⟨rfl, rfl, rfl, rfl, hjoin, fun hnone => ?_⟩
    simp [runAuthAttempt, getHgiTokenEntry, startOrJoin, hnone]
  | payload jwtOpt expHint =>
    cases jwtOpt with
    | none =>
      refine ⟨rfl, rfl, rfl, rfl, hjoin, fun hnone => ?_⟩
      simp [runAuthAttempt, getHgiTokenEntry, startOrJoin, hnone]
    | some jwt =>
      have hjwt : jwt = "" := by
        simpa [authRespFails] using hfail
      subst hjwt
      refine ⟨rfl, rfl, rfl, rfl, hjoin, fun hnone => ?_⟩
      simp [runAuthAttempt, getHgiTokenEntry, startOrJoin, hnone]

/-- Witness for C6: an error payload resolved while attempt 5 is in
flight and no token is cached. -/
theorem C6_auth_failure_single_flight_witness :
    (runAuthAttempt 0 (.errPayload (some "bad creds"))
        ⟨none, .fin 0, some 5⟩).1 =
      .error (authErrMsg (.errPayload (some "bad creds"))) ∧
    ((runAuthAttempt 0 (.errPayload (some "bad creds"))
        ⟨none, .fin 0, some 5⟩).2).authPromise = none ∧
    (startOrJoin 7 ⟨none, .fin 0, some 5⟩).1 = .joinInflight 5 ∧
    (getHgiTokenEntry 0 9 ((runAuthAttempt 0
        (.errPayload (some "bad creds")) ⟨none, .fin 0, some 5⟩).2)).1 =
      .startAttempt 9 := by
  have h := C6_auth_failure_single_flight 0 (.errPayload (some "bad creds"))
    ⟨none, .fin 0, some 5⟩ 5 7 9 (by decide) rfl
  exact ⟨h.1, h.2.1, h.2.2.2.2.1, h.2.2.2.2.2 rfl⟩

/-- Claim C7: the cancelled-order handler with no mapping acknowledges
`200 No mapping` with zero remote calls and an unchanged state; with a
mapping it issues exactly one void request whose fields are the stored
`empresa`, `comprobante` and `documento` with `Estado = 2` (voided),
leaving the whole mapping state unchanged. -/
theorem C7_cancelled_handler (auth : AuthCallResult) (jwt : String)
    (voidRes : VoidCallResult) (st : SysState) (o : Order) :
    (getOrder st.mem o.id = none →
      ordersCancelledHandler auth voidRes st o =
        ((200, "No mapping"), st, noEffects)) ∧
    (∀ m, getOrder st.mem o.id = some m →
      (ordersCancelledHandler (.ok jwt) voidRes st o).2.2.voidCalls =
        [mkVoidDoc m o] ∧
      (ordersCancelledHandler (.ok jwt) voidRes st o).2.1 = st ∧
      (mkVoidDoc m o).Empresa = m.empresa ∧
      (mkVoidDoc m o).IdComprobante = m.comprobante ∧
      (mkVoidDoc m o).Documento = m.documento ∧
      (mkVoidDoc m o).Estado = 2) := by
  constructor
  · intro h
    simp [ordersCancelledHandler, h]
  · intro m h
    cases voidRes <;>
      simp [ordersCancelledHandler, h, mkVoidDoc]

/-- Witness for C7: the unknown order 9999 is acknowledged without any
call, and the mapped order 1001 produces exactly one void document. -/
theorem C7_cancelled_handler_witness :
    ordersCancelledHandler (.ok "tok") .ok ⟨[], []⟩ sampleOrder =
      ((200, "No mapping"), (⟨[], []⟩ : SysState), noEffects) ∧
    (ordersCancelledHandler (.ok "tok") .ok mappedSys
        sampleOrder).2.2.voidCalls = [mkVoidDoc sampleMapping sampleOrder] :=
  ⟨(C7_cancelled_handler (.ok "tok") "tok" .ok ⟨[], []⟩ sampleOrder).1 rfl,
    ((C7_cancelled_handler (.ok "tok") "tok" .ok mappedSys sampleOrder).2
      sampleMapping rfl).1⟩

/-- Claim C8: processing a paid order with no prior mapping performs
exactly one document-creation call; the posted document has exactly two
lines — a credit of the order total to the revenue account referencing
the order id, and a debit of the same total to the receivable account
referencing the customer — so debits equal credits; and both the
in-memory and the durable mapping record the company, the voucher type
and the document id extracted from the remote response. -/
theorem C8_paid_creates_balanced_document (cfg : Config) (jwt : String)
    (resp : CreateResp) (nowIso : String) (st : SysState) (o : Order)
    (h : getOrder st.mem o.id = none) :
    (createHgiDocFromOrder cfg (.ok jwt) (.ok resp) true nowIso
        st o).2.2.createCalls = [buildDocumento cfg nowIso o] ∧
    (buildDocumento cfg nowIso o).ComprobanteDetalle =
      [ { CuentaNIIF := cfg.HGI_CUENTA_INGRESO
          Detalle := "Venta " ++ o.id
          Referencia := some o.id
          Tercero := none
          Debito := 0
          Credito := totalOf o },
        { CuentaNIIF := cfg.HGI_CUENTA_CLIENTE
          Detalle := "Cliente " ++ jsOrStr (terceroOf cfg o) "N/A"
          Referencia := none
          Tercero := terceroOf cfg o
          Debito := totalOf o
          Credito := 0 } ] ∧
    ((buildDocumento cfg nowIso o).ComprobanteDetalle.map
        DetalleLine.Debito).sum =
      ((buildDocumento cfg nowIso o).ComprobanteDetalle.map
        DetalleLine.Credito).sum ∧
    (createHgiDocFromOrder cfg (.ok jwt) (.ok resp) true nowIso st o).1 =
      .created ⟨cfg.HGI_EMPRESA, cfg.HGI_COMPROBANTE, extractDocId resp⟩ ∧
    getOrder ((createHgiDocFromOrder cfg (.ok jwt) (.ok resp) true nowIso
        st o).2.1).mem o.id =
      some ⟨cfg.HGI_EMPRESA, cfg.HGI_COMPROBANTE, extractDocId resp⟩ ∧
    getOrder ((createHgiDocFromOrder cfg (.ok jwt) (.ok resp) true nowIso
        st o).2.1).disk o.id =
      some ⟨cfg.HGI_EMPRESA, cfg.HGI_COMPROBANTE, extractDocId resp⟩ := by
  refine ⟨?_, rfl, ?_, ?_, ?_, ?_⟩ <;>
    simp [createHgiDocFromOrder, h, saveMap, buildDocumento,
      getOrder_setOrder_self]

/-- Witness for C8: Scenario A, order 1001 paid with total 50. -/
theorem C8_paid_creates_balanced_document_witness :
    (createHgiDocFromOrder sampleConfig (.ok "tok") (.ok sampleResp) true
        "now" ⟨[], []⟩ sampleOrder).2.2.createCalls =
      [buildDocumento sampleConfig "now" sampleOrder] ∧
    ((buildDocumento sampleConfig "now" sampleOrder).ComprobanteDetalle.map
        DetalleLine.Debito).sum =
      ((buildDocumento sampleConfig "now" sampleOrder).ComprobanteDetalle.map
        DetalleLine.Credito).sum ∧
    getOrder ((createHgiDocFromOrder sampleConfig (.ok "tok")
        (.ok sampleResp) true "now" ⟨[], []⟩ sampleOrder).2.1).disk
        sampleOrder.id =
      some ⟨sampleConfig.HGI_EMPRESA, sampleConfig.HGI_COMPROBANTE,
        extractDocId sampleResp⟩ := by
  have h := C8_paid_creates_balanced_document sampleConfig "tok" sampleResp
    "now" ⟨[], []⟩ sampleOrder rfl
  exact ⟨h.1, h.2.2.1, h.2.2.2.2.2⟩

/-- Claim C9 (counterexample): not every outbound remote call carries a
bounded timeout — the commerce-platform client is created without a
timeout, so the GraphQL call site (variant lookup and stock set) has
none. -/
theorem C9_counterexample :
    outboundCallSites.all hasBoundedTimeout = false ∧
    shopifyGraphqlSite ∈ outboundCallSites ∧
    hasBoundedTimeout shopifyGraphqlSite = false ∧
    shopifyGraphqlSite.timeoutMs = none := by
  refine ⟨rfl, by decide, rfl, rfl⟩

/-- Claim C9 (amended): every outbound call to the ERP (authentication,
document create and void, product upsert from both product webhooks,
changed-product polling and the stock poll) passes an explicit 20 second
timeout, which is bounded and on the order of tens of seconds; the
commerce-platform client (variant lookup, price update, stock set) is
created without any timeout, so those calls carry no bound. -/
theorem C9_hgi_calls_bounded_shopify_unbounded :
    hgiCallSites.all
      (fun c => (c.timeoutMs == some 20000) && hasBoundedTimeout c) = true ∧
    shopifyClientTimeoutMs = none ∧
    shopifyGraphqlSite.timeoutMs = none ∧
    variantPriceSite.timeoutMs = none := by
  exact ⟨rfl, rfl, rfl, rfl⟩

/-- Claim C10: `verifyShopifyHmac` is a total boolean function — it
returns true exactly when the decoded header has the same length as the
computed digest and the bytes are equal (the equal-length comparison is
the functional content of `crypto.timingSafeEqual`, whose constant-time
execution is outside this model); the guarded body never reaches an
exception, the catch block turns any exception into false, an absent
header is decoded from the empty string, and `verifyWebhook` rejects a
failed verification with status 401 instead of crashing. -/
theorem C10_verify_hmac_total (b64decode : String → List Nat)
    (genBuf : List Nat) (headerHmac : Option String) :
    verifyShopifyHmac b64decode genBuf headerHmac =
      ((genBuf.length == (b64decode (headerHmac.getD "")).length) &&
        (genBuf == b64decode (headerHmac.getD ""))) ∧
    (verifyShopifyHmacCore genBuf
        (b64decode (headerHmac.getD ""))).isOk = true ∧
    (∀ msg : String, catchToFalse (.error msg) = false) ∧
    verifyWebhook false = .reject 401 "Invalid HMAC" ∧
    verifyWebhook true = .next := by
  refine ⟨?_, ?_, fun _ => rfl, rfl, rfl⟩
  · by_cases h : genBuf.length = (b64decode (headerHmac.getD "")).length
    · simp [verifyShopifyHmac, verifyShopifyHmacCore, timingSafeEqualJS,
        catchToFalse, h]
    · simp [verifyShopifyHmac, verifyShopifyHmacCore, timingSafeEqualJS,
        catchToFalse, h, Nat.beq_eq_true_eq]
  · by_cases h : genBuf.length = (b64decode (headerHmac.getD "")).length <;>
      simp [verifyShopifyHmacCore, timingSafeEqualJS, h, Except.isOk,
        Except.toBool]

end MiddlewareHGI
